import Mathlib

/-!
# The cpfile core plug-in (`examples/cpfile/plugins/core/core.c`)

A shallow embedding of the plug-in runtime functions `create`, `start` and
`stop` of the C-Pluff example `cpfile` core plug-in, and theorems about them.

The C functions talk to the C-Pluff framework (`cp_get_extensions_info`,
`cp_lookup_cfg_value`, `cp_resolve_symbol`, `cp_release_info`,
`cp_release_symbol`, `cp_log`) and to the C library (`malloc`, `free`,
`atoi`).  None of those is part of the plug-in, so the embedding takes their
behaviour as a parameter (`Host`) and records every call in a trace.

Memory is explicit where `core.c` depends on it: the `classifiers` pointer is
`none` for `NULL` and otherwise a block of slots, a slot being `none` until it
has been written.  A store or load outside a block, or through `NULL`, is
undefined behaviour in C; a run that reaches one stops there with
`result = none`.
-/

namespace CpfileCore

/-! ## Types declared by the framework headers -/

/-- The `cp_context_t *` handed to `create`: an opaque pointer. -/
abbrev cp_context_t := Nat

/-- A non-null `classifier_t *` returned by `cp_resolve_symbol`: an opaque
pointer. -/
abbrev classifier_t := Nat

/-- Modelled from the spec: `cpluff.h` is not part of the sources at hand.
`core.c` names the two status codes `CP_OK` and `CP_ERR_RESOURCE`; every other
code the framework can report is `CP_ERR_OTHER`. -/
inductive cp_status_t where
  | CP_OK
  | CP_ERR_RESOURCE
  | CP_ERR_OTHER (code : Nat)
  deriving DecidableEq

/-- Modelled from the spec: the severities of `cp_log`; `core.c` only uses
`CP_LOG_ERROR`. -/
inductive cp_log_severity_t where
  | CP_LOG_DEBUG
  | CP_LOG_INFO
  | CP_LOG_WARNING
  | CP_LOG_ERROR
  deriving DecidableEq

/-- Modelled from the spec: a configuration element is a mapping from string
keys (such as `"@priority"`) to string values. -/
abbrev cp_cfg_element_t := List (String × String)

/-- The part of `cp_plugin_info_t` that `start` reads. -/
structure cp_plugin_info_t where
  identifier : String
  deriving DecidableEq

/-- The part of `cp_extension_t` that `start` reads: the declaring plug-in and
the configuration element. -/
structure cp_extension_t where
  plugin : cp_plugin_info_t
  configuration : cp_cfg_element_t
  deriving DecidableEq

/-- Modelled from the spec: configuration lookup maps a key to its string
value, or to absence (`NULL`). -/
def cp_lookup_cfg_value (cfg : cp_cfg_element_t) (path : String) : Option String :=
  cfg.lookup path

/-! ## The data types of `core.c` -/

/-- The C struct `registered_classifier_t`. -/
structure registered_classifier_t where
  priority : Int
  classifier : classifier_t
  deriving DecidableEq

/-- An array obtained from `malloc`: one slot per element, `none` while the
element has not been written. -/
abbrev Block := List (Option registered_classifier_t)

/-- The C struct `plugin_data_t`.  `classifiers = none` is the `NULL`
pointer. -/
structure plugin_data_t where
  ctx : cp_context_t
  num_classifiers : Int
  classifiers : Option Block
  deriving DecidableEq

/-! ## The environment -/

/-- The behaviour of everything `core.c` calls but does not define. -/
structure Host where
  /-- The function `cp_get_extensions_info(ctx, extpt_id, &status, &num)`: the
  returned array (`none` for `NULL`) and the status stored through `&status`;
  `num` is the length of the array. -/
  get_extensions_info : cp_context_t → String → Option (List cp_extension_t) × cp_status_t
  /-- The function `cp_resolve_symbol(ctx, id, name, NULL)`: the symbol, or
  `none` for `NULL`. -/
  resolve_symbol : cp_context_t → String → String → Option classifier_t
  /-- Whether `malloc(sizeof(plugin_data_t))` in `create` succeeds. -/
  malloc_plugin_data : Bool
  /-- Whether `malloc(n * sizeof(registered_classifier_t))` in `start`
  succeeds. -/
  malloc_classifiers : Nat → Bool

/-- One call made by the plug-in to the framework or the C library. -/
inductive Event where
  | get_extensions_info (ctx : cp_context_t) (extpt_id : String)
  | malloc_classifiers (n : Nat)
  | log (ctx : cp_context_t) (severity : cp_log_severity_t) (msg : String)
  | lookup_cfg_value (cfg : cp_cfg_element_t) (path : String)
  | resolve_symbol (ctx : cp_context_t) (id : String) (name : String)
      (ret : Option classifier_t)
  | release_info (ctx : cp_context_t) (info : List cp_extension_t)
  | release_symbol (ctx : cp_context_t) (ptr : classifier_t)
  | free_classifiers
  deriving DecidableEq

/-- The outcome of running one of the functions: what it returned (`none`
when the run stopped at an invalid memory access), the instance data at that
point and the calls made up to it, oldest first. -/
structure Run (α : Type) where
  result : Option α
  data : plugin_data_t
  trace : List Event

/-- The same run preceded by the calls `evs`. -/
def Run.after {α : Type} (evs : List Event) (r : Run α) : Run α :=
  { r with trace := evs ++ r.trace }

/-! ## `atoi` -/

/-- The C `isspace` in the "C" locale: space, and `\t \n \v \f \r`. -/
def isspace (c : Char) : Bool :=
  c.toNat == 32 || (9 ≤ c.toNat && c.toNat ≤ 13)

/-- The C `isdigit`. -/
def isdigit (c : Char) : Bool :=
  48 ≤ c.toNat && c.toNat ≤ 57

/-- The value of the longest prefix of decimal digits, continuing from
`acc`. -/
def atoi_digits : List Char → Nat → Nat
  | [], acc => acc
  | c :: cs, acc => if isdigit c then atoi_digits cs (10 * acc + (c.toNat - 48)) else acc

/-- An optional sign, then the digits. -/
def atoi_signed : List Char → Int
  | [] => 0
  | c :: cs =>
    if c.toNat == 45 then - (atoi_digits cs 0 : Int)
    else if c.toNat == 43 then (atoi_digits cs 0 : Int)
    else (atoi_digits (c :: cs) 0 : Int)

/-- Leading white space is skipped. -/
def atoi_chars : List Char → Int
  | [] => 0
  | c :: cs => if isspace c then atoi_chars cs else atoi_signed (c :: cs)

/-- The C library function `atoi`, for values that fit an `int` (C leaves the
others undefined). -/
def atoi (str : String) : Int :=
  atoi_chars str.toList

/-! ## `create` -/

/-- The function `create` of `core.c`: the new instance, or `none` for `NULL`,
and the calls made. -/
def create (h : Host) (ctx : cp_context_t) : Option plugin_data_t × List Event :=
  if h.malloc_plugin_data then
    (some { ctx := ctx, num_classifiers := 0, classifiers := none }, [])
  else
    (none, [Event.log ctx cp_log_severity_t.CP_LOG_ERROR
      "Insufficient memory for plug-in data."])

/-! ## `start` -/

/-- The store `classifiers[i] = v`: the new block, or `none` when the store is
through `NULL` or outside the block. -/
def store (classifiers : Option Block) (i : Int) (v : registered_classifier_t) :
    Option Block :=
  match classifiers with
  | none => none
  | some b => if 0 ≤ i ∧ i < b.length then some (b.set i.toNat (some v)) else none

/-- The load of `classifiers[i]`: `none` when the load is through `NULL`,
outside the block, or of an element never written. -/
def load (classifiers : Option Block) (i : Nat) : Option registered_classifier_t :=
  match classifiers with
  | none => none
  | some b => (b.get? i).join

/-- The `for` loop of `start` over the extensions not yet visited. -/
def start_loop (h : Host) : List cp_extension_t → plugin_data_t → Run Unit
  | [], data => { result := some (), data := data, trace := [] }
  | e :: rest, data =>
    match cp_lookup_cfg_value e.configuration "@priority" with
    | none =>
      (start_loop h rest data).after
        [Event.lookup_cfg_value e.configuration "@priority",
         Event.log data.ctx cp_log_severity_t.CP_LOG_ERROR
           "Ignoring classifier without priority."]
    | some str =>
      let pri := atoi str
      match cp_lookup_cfg_value e.configuration "@classifier" with
      | none =>
        (start_loop h rest data).after
          [Event.lookup_cfg_value e.configuration "@priority",
           Event.lookup_cfg_value e.configuration "@classifier",
           Event.log data.ctx cp_log_severity_t.CP_LOG_ERROR
             "Ignoring classifier without symbol name."]
      | some name =>
        match h.resolve_symbol data.ctx e.plugin.identifier name with
        | none =>
          (start_loop h rest data).after
            [Event.lookup_cfg_value e.configuration "@priority",
             Event.lookup_cfg_value e.configuration "@classifier",
             Event.resolve_symbol data.ctx e.plugin.identifier name none,
             Event.log data.ctx cp_log_severity_t.CP_LOG_ERROR
               "Ignoring classifier which could not be resolved."]
        | some cl =>
          match store data.classifiers data.num_classifiers
              { priority := pri, classifier := cl } with
          | none =>
            { result := none, data := data,
              trace :=
                [Event.lookup_cfg_value e.configuration "@priority",
                 Event.lookup_cfg_value e.configuration "@classifier",
                 Event.resolve_symbol data.ctx e.plugin.identifier name (some cl)] }
          | some b =>
            (start_loop h rest
                { data with classifiers := some b,
                            num_classifiers := data.num_classifiers + 1 }).after
              [Event.lookup_cfg_value e.configuration "@priority",
               Event.lookup_cfg_value e.configuration "@classifier",
               Event.resolve_symbol data.ctx e.plugin.identifier name (some cl)]

/-- The tail of `start`: the loop, then `cp_release_info` and `return CP_OK`. -/
def start_resolve (h : Host) (cl_exts : List cp_extension_t) (data : plugin_data_t) :
    Run cp_status_t :=
  let r := start_loop h cl_exts data
  match r.result with
  | none => { result := none, data := r.data, trace := r.trace }
  | some _ =>
    { result := some cp_status_t.CP_OK, data := r.data,
      trace := r.trace ++ [Event.release_info r.data.ctx cl_exts] }

/-- The function `start` of `core.c`. -/
def start (h : Host) (data : plugin_data_t) : Run cp_status_t :=
  match h.get_extensions_info data.ctx "org.c-pluff.examples.cpfile.core.classifiers" with
  | (none, status) =>
    { result := some status, data := data,
      trace := [Event.get_extensions_info data.ctx
        "org.c-pluff.examples.cpfile.core.classifiers"] }
  | (some cl_exts, _) =>
    if data.num_classifiers > 0 then
      if h.malloc_classifiers cl_exts.length then
        (start_resolve h cl_exts
            { data with classifiers := some (List.replicate cl_exts.length none) }).after
          [Event.get_extensions_info data.ctx
             "org.c-pluff.examples.cpfile.core.classifiers",
           Event.malloc_classifiers cl_exts.length]
      else
        { result := some cp_status_t.CP_ERR_RESOURCE,
          data := { data with classifiers := none },
          trace :=
            [Event.get_extensions_info data.ctx
               "org.c-pluff.examples.cpfile.core.classifiers",
             Event.malloc_classifiers cl_exts.length,
             Event.log data.ctx cp_log_severity_t.CP_LOG_ERROR
               "Insufficient memory for classifier list."] }
    else
      (start_resolve h cl_exts data).after
        [Event.get_extensions_info data.ctx
           "org.c-pluff.examples.cpfile.core.classifiers"]

/-! ## `stop` -/

/-- The `for` loop of `stop` over the indices not yet visited. -/
def stop_loop (data : plugin_data_t) : List Nat → Run Unit
  | [] => { result := some (), data := data, trace := [] }
  | i :: rest =>
    match load data.classifiers i with
    | none => { result := none, data := data, trace := [] }
    | some c => (stop_loop data rest).after [Event.release_symbol data.ctx c.classifier]

/-- The function `stop` of `core.c`. -/
def stop (data : plugin_data_t) : Run Unit :=
  match data.classifiers with
  | none => { result := some (), data := data, trace := [] }
  | some _ =>
    let r := stop_loop data (List.range data.num_classifiers.toNat)
    match r.result with
    | none => r
    | some _ =>
      { result := some (),
        data := { data with classifiers := none, num_classifiers := 0 },
        trace := r.trace ++ [Event.free_classifiers] }


/-! ## Observations -/

/-- The table as `stop` reads it: the elements at the indices below
`num_classifiers`. -/
def table (data : plugin_data_t) : List (Option registered_classifier_t) :=
  (List.range data.num_classifiers.toNat).map (load data.classifiers)

/-- The non-null symbols returned by `cp_resolve_symbol` in a trace. -/
def resolved_handles : List Event → List classifier_t
  | [] => []
  | Event.resolve_symbol _ _ _ (some cl) :: rest => cl :: resolved_handles rest
  | _ :: rest => resolved_handles rest

/-- The arguments of the `cp_release_symbol` calls in a trace. -/
def released_handles : List Event → List classifier_t
  | [] => []
  | Event.release_symbol _ ptr :: rest => ptr :: released_handles rest
  | _ :: rest => released_handles rest

/-- The capability resolver as the specification words it: read the priority
key, parse it, read the symbol-name key, resolve the symbol in the declaring
plug-in, and yield the pair on full success. -/
def capability_resolver (h : Host) (ctx : cp_context_t) (e : cp_extension_t) :
    Option registered_classifier_t :=
  match cp_lookup_cfg_value e.configuration "@priority" with
  | none => none
  | some p =>
    match cp_lookup_cfg_value e.configuration "@classifier" with
    | none => none
    | some name =>
      match h.resolve_symbol ctx e.plugin.identifier name with
      | none => none
      | some cl => some { priority := atoi p, classifier := cl }

/-- The table of `data` is exactly `l`: the count is its length and every
element below the count has been written. -/
def Holds (data : plugin_data_t) (l : List registered_classifier_t) : Prop :=
  data.num_classifiers = l.length ∧ table data = l.map some

/-- The `cp_get_extensions_info` result of a run: the enumerated extensions,
none when the call returned `NULL`. -/
def enumerated (h : Host) (data : plugin_data_t) : List cp_extension_t :=
  (h.get_extensions_info data.ctx "org.c-pluff.examples.cpfile.core.classifiers").1.getD []

/-- The number of `cp_release_info` calls in a trace. -/
def release_info_calls : List Event → Nat
  | [] => 0
  | Event.release_info _ _ :: rest => release_info_calls rest + 1
  | _ :: rest => release_info_calls rest

/-- The number of `malloc` calls for the classifier array in a trace. -/
def malloc_calls : List Event → Nat
  | [] => 0
  | Event.malloc_classifiers _ :: rest => malloc_calls rest + 1
  | _ :: rest => malloc_calls rest

/-- The plug-in identifier and symbol name of every `cp_resolve_symbol` call
in a trace, in call order. -/
def resolve_calls : List Event → List (String × String)
  | [] => []
  | Event.resolve_symbol _ id name _ :: rest => (id, name) :: resolve_calls rest
  | _ :: rest => resolve_calls rest

/-- The resolution an extension asks for: the declaring plug-in's identifier
and the `"@classifier"` value, when both `"@priority"` and `"@classifier"` are
present. -/
def resolve_request (e : cp_extension_t) : Option (String × String) :=
  match cp_lookup_cfg_value e.configuration "@priority" with
  | none => none
  | some _ =>
    match cp_lookup_cfg_value e.configuration "@classifier" with
    | none => none
    | some name => some (e.plugin.identifier, name)

/-! ## Concrete environments

Hosts and extensions used to evaluate the functions on explicit inputs. -/

/-- An extension declared by plug-in `id` with configuration `cfg`. -/
def mk_extension (id : String) (cfg : List (String × String)) : cp_extension_t :=
  { plugin := { identifier := id }, configuration := cfg }

/-- A host whose enumeration succeeds with `exts`, that resolves exactly the
symbol names listed in `syms`, and whose allocations succeed. -/
def host_enumerating (exts : List cp_extension_t) (syms : List (String × classifier_t)) :
    Host where
  get_extensions_info := fun _ _ => (some exts, cp_status_t.CP_OK)
  resolve_symbol := fun _ _ name => syms.lookup name
  malloc_plugin_data := true
  malloc_classifiers := fun _ => true

/-- A host whose enumeration fails with status `s`. -/
def host_enumeration_fails (s : cp_status_t) : Host where
  get_extensions_info := fun _ _ => (none, s)
  resolve_symbol := fun _ _ _ => none
  malloc_plugin_data := true
  malloc_classifiers := fun _ => true

/-- A host whose enumeration succeeds with `exts` and whose allocation of the
classifier array fails. -/
def host_allocation_fails (exts : List cp_extension_t) : Host where
  get_extensions_info := fun _ _ => (some exts, cp_status_t.CP_OK)
  resolve_symbol := fun _ _ _ => some 1
  malloc_plugin_data := true
  malloc_classifiers := fun _ => false

/-- The instance `create` returns for context `7`. -/
def fresh_instance : plugin_data_t :=
  { ctx := 7, num_classifiers := 0, classifiers := none }

/-- An instance with an empty table whose `classifiers` pointer already
addresses storage for three elements. -/
def instance_with_storage : plugin_data_t :=
  { ctx := 7, num_classifiers := 0, classifiers := some [none, none, none] }

/-- An instance whose count is one and whose table holds one element. -/
def instance_with_entry : plugin_data_t :=
  { ctx := 7, num_classifiers := 1,
    classifiers := some [some { priority := 1, classifier := 50 }] }

/-- Two well-formed extensions: priorities `"10"` and `"20"`, symbols `"a"`
and `"b"`. -/
def exts_wellformed : List cp_extension_t :=
  [mk_extension "p1" [("@priority", "10"), ("@classifier", "a")],
   mk_extension "p2" [("@priority", "20"), ("@classifier", "b")]]

/-- An extension without `"@priority"` followed by a well-formed one. -/
def exts_bad_then_good : List cp_extension_t :=
  [mk_extension "p1" [("@classifier", "a")],
   mk_extension "p2" [("@priority", "20"), ("@classifier", "b")]]

/-- The scenario of the specification: a well-formed extension, one with
priority `"bad"` and no symbol, and one whose symbol `"b"` does not resolve. -/
def exts_scenario : List cp_extension_t :=
  [mk_extension "p1" [("@priority", "10"), ("@classifier", "a")],
   mk_extension "p2" [("@priority", "bad")],
   mk_extension "p3" [("@priority", "5"), ("@classifier", "b")]]

/-- Three extensions none of which yields a classifier: no priority, no
symbol name, and a symbol that does not resolve. -/
def exts_all_skipped : List cp_extension_t :=
  [mk_extension "p1" [("@classifier", "a")],
   mk_extension "p2" [("@priority", "3")],
   mk_extension "p3" [("@priority", "5"), ("@classifier", "zz")]]

/-- Two resolvable extensions with priorities `"5"` then `"10"`. -/
def exts_5_then_10 : List cp_extension_t :=
  [mk_extension "p1" [("@priority", "5"), ("@classifier", "a")],
   mk_extension "p2" [("@priority", "10"), ("@classifier", "b")]]

/-- Two resolvable extensions with priorities `"10"` then `"5"`. -/
def exts_10_then_5 : List cp_extension_t :=
  [mk_extension "p1" [("@priority", "10"), ("@classifier", "a")],
   mk_extension "p2" [("@priority", "5"), ("@classifier", "b")]]

/-- The host that enumerates `exts_wellformed` and resolves both symbols. -/
def host_wellformed : Host :=
  host_enumerating exts_wellformed [("a", 100), ("b", 200)]

/-- The host that enumerates `exts_bad_then_good` and resolves `"b"`. -/
def host_bad_then_good : Host :=
  host_enumerating exts_bad_then_good [("b", 200)]

/-- The host of the scenario: `"a"` resolves, `"b"` does not. -/
def host_scenario : Host :=
  host_enumerating exts_scenario [("a", 100)]

/-- The host that enumerates `exts_all_skipped` and resolves `"a"` only. -/
def host_all_skipped : Host :=
  host_enumerating exts_all_skipped [("a", 100)]

/-- The host that enumerates priorities `"5"` then `"10"`. -/
def host_5_then_10 : Host :=
  host_enumerating exts_5_then_10 [("a", 100), ("b", 200)]

/-- The host that enumerates priorities `"10"` then `"5"`. -/
def host_10_then_5 : Host :=
  host_enumerating exts_10_then_5 [("a", 100), ("b", 200)]

/-- An instance whose count is one and whose `classifiers` pointer is `NULL`,
the state `start` leaves when its allocation fails. -/
def instance_null_with_count : plugin_data_t :=
  { ctx := 7, num_classifiers := 1, classifiers := none }

/-- One extension with the non-numeric priority `"bad"` and a symbol `"a"`. -/
def exts_bad_priority : List cp_extension_t :=
  [mk_extension "p1" [("@priority", "bad"), ("@classifier", "a")]]

/-- The host that enumerates `exts_bad_priority` and resolves `"a"`. -/
def host_bad_priority : Host :=
  host_enumerating exts_bad_priority [("a", 100)]

/-- One well-formed extension: priority `"10"`, symbol `"a"`. -/
def exts_single : List cp_extension_t :=
  [mk_extension "p1" [("@priority", "10"), ("@classifier", "a")]]

/-- The host that enumerates `exts_single` and resolves `"a"`. -/
def host_single : Host :=
  host_enumerating exts_single [("a", 100)]

/-! ## Lemmas -/

theorem resolved_handles_append (a b : List Event) :
    resolved_handles (a ++ b) = resolved_handles a ++ resolved_handles b := by
  induction a with
  | nil => rfl
  | cons e a ih =>
    cases e <;> try (simpa [resolved_handles] using ih)
    case resolve_symbol ctx id name ret =>
      cases ret <;> simpa [resolved_handles] using ih

theorem released_handles_append (a b : List Event) :
    released_handles (a ++ b) = released_handles a ++ released_handles b := by
  induction a with
  | nil => rfl
  | cons e a ih =>
    cases e <;> simpa [released_handles] using ih

theorem holds_store {d : plugin_data_t} {l : List registered_classifier_t}
    {t : registered_classifier_t} {b : Block} (hd : Holds d l)
    (hs : store d.classifiers d.num_classifiers t = some b) :
    Holds { d with classifiers := some b, num_classifiers := d.num_classifiers + 1 }
      (l ++ [t]) := by
  obtain ⟨hn, ht⟩ := hd
  cases hc : d.classifiers with
  | none => simp [store, hc] at hs
  | some b0 =>
    simp only [store, hc, hn] at hs
    split at hs
    · rename_i hlt
      have hlt2 : l.length < b0.length := by exact_mod_cast hlt.2
      simp only [Option.some.injEq, Int.toNat_ofNat] at hs
      subst hs
      refine ⟨by simp [hn], ?_⟩
      simp only [table, hn, hc] at ht ⊢
      have e1 : ((l.length : Int) + 1).toNat = l.length + 1 := by omega
      rw [e1, List.range_succ, List.map_append, List.map_append]
      congr 1
      · rw [← ht, Int.toNat_ofNat]
        apply List.map_congr_left
        intro i hi
        have hi2 : i < l.length := List.mem_range.mp hi
        have hne : l.length ≠ i := by omega
        simp [load, List.getElem?_set_ne hne]
      · simp [load, hlt2]
    · simp at hs

@[simp] theorem after_result {α : Type} (evs : List Event) (r : Run α) :
    (r.after evs).result = r.result := rfl

@[simp] theorem after_data {α : Type} (evs : List Event) (r : Run α) :
    (r.after evs).data = r.data := rfl

@[simp] theorem after_trace {α : Type} (evs : List Event) (r : Run α) :
    (r.after evs).trace = evs ++ r.trace := rfl

theorem start_loop_spec (h : Host) :
    ∀ (exts : List cp_extension_t) (d : plugin_data_t) (l : List registered_classifier_t),
    Holds d l →
    ∃ es l', es.Sublist exts ∧
      List.Forall₂ (fun e t => capability_resolver h d.ctx e = some t) es l' ∧
      Holds (start_loop h exts d).data (l ++ l') ∧
      (start_loop h exts d).data.ctx = d.ctx ∧
      ((start_loop h exts d).result = some () →
        l' = exts.filterMap (capability_resolver h d.ctx) ∧
        resolved_handles (start_loop h exts d).trace = l'.map (fun t => t.classifier)) := by
  intro exts
  induction exts with
  | nil =>
    intro d l hd
    exact ⟨[], [], List.Sublist.slnil, List.Forall₂.nil, by simpa [start_loop] using hd, rfl,
      fun _ => ⟨rfl, rfl⟩⟩
  | cons e rest ih =>
    intro d l hd
    cases hp : cp_lookup_cfg_value e.configuration "@priority" with
    | none =>
      obtain ⟨es, l', h1, h2, h3, h4, h5⟩ := ih d l hd
      refine ⟨es, l', h1.cons e, h2, ?_, ?_, ?_⟩
      · simpa [start_loop, hp] using h3
      · simpa [start_loop, hp] using h4
      · intro hr
        have hr2 : (start_loop h rest d).result = some () := by
          simpa [start_loop, hp] using hr
        obtain ⟨h6, h7⟩ := h5 hr2
        refine ⟨?_, ?_⟩
        · simpa [List.filterMap_cons, capability_resolver, hp] using h6
        · simpa [start_loop, hp, resolved_handles] using h7
    | some p =>
      cases hn : cp_lookup_cfg_value e.configuration "@classifier" with
      | none =>
        obtain ⟨es, l', h1, h2, h3, h4, h5⟩ := ih d l hd
        refine ⟨es, l', h1.cons e, h2, ?_, ?_, ?_⟩
        · simpa [start_loop, hp, hn] using h3
        · simpa [start_loop, hp, hn] using h4
        · intro hr
          have hr2 : (start_loop h rest d).result = some () := by
            simpa [start_loop, hp, hn] using hr
          obtain ⟨h6, h7⟩ := h5 hr2
          refine ⟨?_, ?_⟩
          · simpa [List.filterMap_cons, capability_resolver, hp, hn] using h6
          · simpa [start_loop, hp, hn, resolved_handles] using h7
      | some name =>
        cases hc : h.resolve_symbol d.ctx e.plugin.identifier name with
        | none =>
          obtain ⟨es, l', h1, h2, h3, h4, h5⟩ := ih d l hd
          refine ⟨es, l', h1.cons e, h2, ?_, ?_, ?_⟩
          · simpa [start_loop, hp, hn, hc] using h3
          · simpa [start_loop, hp, hn, hc] using h4
          · intro hr
            have hr2 : (start_loop h rest d).result = some () := by
              simpa [start_loop, hp, hn, hc] using hr
            obtain ⟨h6, h7⟩ := h5 hr2
            refine ⟨?_, ?_⟩
            · simpa [List.filterMap_cons, capability_resolver, hp, hn, hc] using h6
            · simpa [start_loop, hp, hn, hc, resolved_handles] using h7
        | some cl =>
          cases hs : store d.classifiers d.num_classifiers
              { priority := atoi p, classifier := cl } with
          | none =>
            refine ⟨[], [], List.nil_sublist _, List.Forall₂.nil, ?_, ?_, ?_⟩
            · simpa [start_loop, hp, hn, hc, hs] using hd
            · simp [start_loop, hp, hn, hc, hs]
            · intro hr
              simp [start_loop, hp, hn, hc, hs] at hr
          | some b =>
            have hd2 := holds_store hd hs
            obtain ⟨es, l', h1, h2, h3, h4, h5⟩ := ih _ _ hd2
            have hres : capability_resolver h d.ctx e =
                some { priority := atoi p, classifier := cl } := by
              simp [capability_resolver, hp, hn, hc]
            refine ⟨e :: es, { priority := atoi p, classifier := cl } :: l',
              h1.cons₂ e, List.Forall₂.cons hres h2, ?_, ?_, ?_⟩
            · simpa [start_loop, hp, hn, hc, hs] using h3
            · simpa [start_loop, hp, hn, hc, hs] using h4
            · intro hr
              have hr2 : (start_loop h rest
                  ⟨d.ctx, d.num_classifiers + 1, some b⟩).result = some () := by
                simpa [start_loop, hp, hn, hc, hs] using hr
              obtain ⟨h6, h7⟩ := h5 hr2
              refine ⟨?_, ?_⟩
              · simpa [List.filterMap_cons, hres] using h6
              · simpa [start_loop, hp, hn, hc, hs, resolved_handles] using h7

theorem stop_loop_spec (d : plugin_data_t) :
    ∀ (idxs : List Nat) (l : List registered_classifier_t),
    idxs.map (load d.classifiers) = l.map some →
    stop_loop d idxs =
      { result := some (), data := d,
        trace := l.map (fun t => Event.release_symbol d.ctx t.classifier) } := by
  intro idxs
  induction idxs with
  | nil =>
    intro l hl
    cases l with
    | nil => rfl
    | cons t l => simp at hl
  | cons i rest ih =>
    intro l hl
    cases l with
    | nil => simp at hl
    | cons t l =>
      simp only [List.map_cons, List.cons.injEq] at hl
      simp [stop_loop, hl.1, ih l hl.2, Run.after]

theorem holds_empty {d : plugin_data_t} (hd : d.num_classifiers = 0) : Holds d [] := by
  simp [Holds, table, hd]

theorem holds_null {d : plugin_data_t} {l : List registered_classifier_t}
    (hd : Holds d l) (hc : d.classifiers = none) : l = [] := by
  obtain ⟨hn, ht⟩ := hd
  cases l with
  | nil => rfl
  | cons t l =>
    simp [table, hn, hc, load, List.range_succ_eq_map] at ht

/-- On an instance whose table is exactly `l`, `stop` returns, leaves the
empty table and releases the symbols of `l` in order. -/
theorem stop_spec {d : plugin_data_t} {l : List registered_classifier_t} (hd : Holds d l) :
    (stop d).result = some () ∧
    (stop d).data = { ctx := d.ctx, num_classifiers := 0, classifiers := none } ∧
    released_handles (stop d).trace = l.map (fun t => t.classifier) := by
  cases hc : d.classifiers with
  | none =>
    have hl := holds_null hd hc
    subst hl
    have hn : d.num_classifiers = 0 := by simpa using hd.1
    refine ⟨by simp [stop, hc], ?_, by simp [stop, hc, released_handles]⟩
    simp only [stop, hc]
    cases d
    simp_all
  | some b =>
    have hloop := stop_loop_spec d (List.range d.num_classifiers.toNat) l hd.2
    have hrel : ∀ (l : List registered_classifier_t),
        released_handles (l.map (fun t => Event.release_symbol d.ctx t.classifier)) =
          l.map (fun t => t.classifier) := by
      intro l
      induction l with
      | nil => rfl
      | cons t l ih => simp [released_handles, ih]
    refine ⟨by simp [stop, hc, hloop], by simp [stop, hc, hloop], ?_⟩
    simp [stop, hc, hloop, released_handles_append, released_handles, hrel]

/-- What `start` does on an instance whose count is zero when the enumeration
succeeds: the run is the loop, then `cp_release_info`. -/
theorem start_spec (h : Host) (d : plugin_data_t) (exts : List cp_extension_t)
    (st : cp_status_t)
    (henum : h.get_extensions_info d.ctx "org.c-pluff.examples.cpfile.core.classifiers" =
      (some exts, st))
    (hempty : d.num_classifiers = 0) :
    ∃ es l, es.Sublist exts ∧
      List.Forall₂ (fun e t => capability_resolver h d.ctx e = some t) es l ∧
      Holds (start h d).data l ∧
      (start h d).data.ctx = d.ctx ∧
      ((start h d).result = none ∨ (start h d).result = some cp_status_t.CP_OK) ∧
      ((start h d).result = some cp_status_t.CP_OK →
        l = exts.filterMap (capability_resolver h d.ctx) ∧
        resolved_handles (start h d).trace = l.map (fun t => t.classifier)) := by
  obtain ⟨es, l, h1, h2, h3, h4, h5⟩ := start_loop_spec h exts d [] (holds_empty hempty)
  simp only [List.nil_append] at h3
  refine ⟨es, l, h1, h2, ?_⟩
  cases hr : (start_loop h exts d).result with
  | none =>
    refine ⟨?_, ?_, ?_, ?_⟩
    · simpa [start, henum, hempty, start_resolve, hr] using h3
    · simpa [start, henum, hempty, start_resolve, hr] using h4
    · left
      simp [start, henum, hempty, start_resolve, hr]
    · intro hok
      simp [start, henum, hempty, start_resolve, hr] at hok
  | some u =>
    obtain ⟨h6, h7⟩ := h5 hr
    refine ⟨?_, ?_, ?_, ?_⟩
    · simpa [start, henum, hempty, start_resolve, hr] using h3
    · simpa [start, henum, hempty, start_resolve, hr] using h4
    · right
      simp [start, henum, hempty, start_resolve, hr]
    · intro _
      refine ⟨h6, ?_⟩
      simp [start, henum, hempty, start_resolve, hr, resolved_handles_append,
        resolved_handles, h7]

/-- While the `classifiers` pointer is `NULL` the loop of `start` cannot store
anything: it leaves the instance as it is, and it runs to its end exactly when
no extension yields a classifier. -/
theorem start_loop_null (h : Host) :
    ∀ (exts : List cp_extension_t) (d : plugin_data_t), d.classifiers = none →
      (start_loop h exts d).data = d ∧
      ((start_loop h exts d).result = some () ↔
        exts.filterMap (capability_resolver h d.ctx) = []) := by
  intro exts
  induction exts with
  | nil =>
    intro d _
    simp [start_loop]
  | cons e rest ih =>
    intro d hd
    have hrest := ih d hd
    cases hp : cp_lookup_cfg_value e.configuration "@priority" with
    | none =>
      have hres : capability_resolver h d.ctx e = none := by simp [capability_resolver, hp]
      simpa [start_loop, hp, hres, List.filterMap_cons] using hrest
    | some p =>
      cases hn : cp_lookup_cfg_value e.configuration "@classifier" with
      | none =>
        have hres : capability_resolver h d.ctx e = none := by
          simp [capability_resolver, hp, hn]
        simpa [start_loop, hp, hn, hres, List.filterMap_cons] using hrest
      | some name =>
        cases hc : h.resolve_symbol d.ctx e.plugin.identifier name with
        | none =>
          have hres : capability_resolver h d.ctx e = none := by
            simp [capability_resolver, hp, hn, hc]
          simpa [start_loop, hp, hn, hc, hres, List.filterMap_cons] using hrest
        | some cl =>
          have hres : capability_resolver h d.ctx e =
              some { priority := atoi p, classifier := cl } := by
            simp [capability_resolver, hp, hn, hc]
          simp [start_loop, hp, hn, hc, hd, store, hres, List.filterMap_cons]

theorem capability_resolver_eq_some {h : Host} {ctx : cp_context_t} {e : cp_extension_t}
    {t : registered_classifier_t} (ht : capability_resolver h ctx e = some t) :
    ∃ p name cl,
      cp_lookup_cfg_value e.configuration "@priority" = some p ∧
      cp_lookup_cfg_value e.configuration "@classifier" = some name ∧
      h.resolve_symbol ctx e.plugin.identifier name = some cl ∧
      t = { priority := atoi p, classifier := cl } := by
  unfold capability_resolver at ht
  cases hp : cp_lookup_cfg_value e.configuration "@priority" with
  | none => simp [hp] at ht
  | some p =>
    cases hn : cp_lookup_cfg_value e.configuration "@classifier" with
    | none => simp [hp, hn] at ht
    | some name =>
      cases hc : h.resolve_symbol ctx e.plugin.identifier name with
      | none => simp [hp, hn, hc] at ht
      | some cl =>
        simp only [hp, hn, hc, Option.some.injEq] at ht
        exact ⟨p, name, cl, rfl, rfl, hc, ht.symm⟩

theorem release_info_calls_append (a b : List Event) :
    release_info_calls (a ++ b) = release_info_calls a + release_info_calls b := by
  induction a with
  | nil => simp [release_info_calls]
  | cons e a ih =>
    cases e <;> simp [release_info_calls, ih]
    omega

/-- The loop of `start` never calls `cp_release_info`. -/
theorem start_loop_release_info (h : Host) :
    ∀ (exts : List cp_extension_t) (d : plugin_data_t),
      release_info_calls (start_loop h exts d).trace = 0 := by
  intro exts
  induction exts with
  | nil =>
    intro d
    rfl
  | cons e rest ih =>
    intro d
    cases hp : cp_lookup_cfg_value e.configuration "@priority" with
    | none => simp [start_loop, hp, release_info_calls, ih]
    | some p =>
      cases hn : cp_lookup_cfg_value e.configuration "@classifier" with
      | none => simp [start_loop, hp, hn, release_info_calls, ih]
      | some name =>
        cases hc : h.resolve_symbol d.ctx e.plugin.identifier name with
        | none => simp [start_loop, hp, hn, hc, release_info_calls, ih]
        | some cl =>
          cases hs : store d.classifiers d.num_classifiers
              { priority := atoi p, classifier := cl } with
          | none => simp [start_loop, hp, hn, hc, hs, release_info_calls]
          | some b => simp [start_loop, hp, hn, hc, hs, release_info_calls, ih]

/-- On the path of `start` that returns `CP_OK` after a successful
enumeration, `cp_release_info` is called exactly once, whatever the instance
state. -/
theorem start_ok_release_info (h : Host) (d : plugin_data_t) (exts : List cp_extension_t)
    (st : cp_status_t)
    (henum : h.get_extensions_info d.ctx "org.c-pluff.examples.cpfile.core.classifiers" =
      (some exts, st))
    (hok : (start h d).result = some cp_status_t.CP_OK) :
    release_info_calls (start h d).trace = 1 := by
  have key : ∀ d2 : plugin_data_t, (start_resolve h exts d2).result = some cp_status_t.CP_OK →
      release_info_calls (start_resolve h exts d2).trace = 1 := by
    intro d2 h2
    unfold start_resolve at h2 ⊢
    cases hr : (start_loop h exts d2).result with
    | none => simp [hr] at h2
    | some u =>
      simp [hr, release_info_calls_append, release_info_calls, start_loop_release_info]
  by_cases hnum : d.num_classifiers > 0
  · by_cases hm : h.malloc_classifiers exts.length = true
    · have hres : (start_resolve h exts
          ⟨d.ctx, d.num_classifiers, some (List.replicate exts.length none)⟩).result =
            some cp_status_t.CP_OK := by
        simpa [start, henum, hnum, hm] using hok
      simpa [start, henum, hnum, hm, release_info_calls] using key _ hres
    · simp [start, henum, hnum, hm] at hok
  · have hres : (start_resolve h exts d).result = some cp_status_t.CP_OK := by
      simpa [start, henum, hnum] using hok
    simpa [start, henum, hnum, release_info_calls] using key _ hres

/-- When `start`, entered with a count of zero, returns `CP_OK` after a
successful enumeration, the table is the capability resolver mapped over the
enumeration, in enumeration order, skipped extensions left out. -/
theorem start_table_eq_filterMap (h : Host) (d : plugin_data_t)
    (exts : List cp_extension_t) (st : cp_status_t)
    (henum : h.get_extensions_info d.ctx "org.c-pluff.examples.cpfile.core.classifiers" =
      (some exts, st))
    (hempty : d.num_classifiers = 0)
    (hok : (start h d).result = some cp_status_t.CP_OK) :
    table (start h d).data = (exts.filterMap (capability_resolver h d.ctx)).map some := by
  obtain ⟨es, l, _, _, h3, _, _, h6⟩ := start_spec h d exts st henum hempty
  rw [h3.2, (h6 hok).1]

/-- On an instance with a count of zero and a `NULL` `classifiers` pointer,
the state `create` and `stop` leave, `start` after a successful enumeration
returns `CP_OK` exactly when no extension yields a classifier; otherwise it
reaches a store through the `NULL` pointer. -/
theorem start_null_outcome (h : Host) (d : plugin_data_t)
    (exts : List cp_extension_t) (st : cp_status_t)
    (henum : h.get_extensions_info d.ctx "org.c-pluff.examples.cpfile.core.classifiers" =
      (some exts, st))
    (hempty : d.num_classifiers = 0) (hnull : d.classifiers = none) :
    (start h d).data = d ∧
    (exts.filterMap (capability_resolver h d.ctx) = [] →
      (start h d).result = some cp_status_t.CP_OK) ∧
    (exts.filterMap (capability_resolver h d.ctx) ≠ [] → (start h d).result = none) := by
  obtain ⟨l1, l2⟩ := start_loop_null h exts d hnull
  cases hr : (start_loop h exts d).result with
  | none =>
    refine ⟨by simp [start, henum, hempty, start_resolve, hr, l1], ?_, ?_⟩
    · intro hnil
      rw [l2.mpr hnil] at hr
      simp at hr
    · intro _
      simp [start, henum, hempty, start_resolve, hr]
  | some u =>
    refine ⟨by simp [start, henum, hempty, start_resolve, hr, l1], ?_, ?_⟩
    · intro _
      simp [start, henum, hempty, start_resolve, hr]
    · intro hne
      exact absurd (l2.mp hr) hne

/-- With a `NULL` `classifiers` pointer `stop` does nothing. -/
theorem stop_null_is_noop_aux (d : plugin_data_t) (hnull : d.classifiers = none) :
    stop d = { result := some (), data := d, trace := [] } := by
  simp [stop, hnull]

theorem malloc_calls_append (a b : List Event) :
    malloc_calls (a ++ b) = malloc_calls a + malloc_calls b := by
  induction a with
  | nil => simp [malloc_calls]
  | cons e a ih =>
    cases e <;> simp [malloc_calls, ih]
    omega

theorem resolve_calls_append (a b : List Event) :
    resolve_calls (a ++ b) = resolve_calls a ++ resolve_calls b := by
  induction a with
  | nil => rfl
  | cons e a ih =>
    cases e <;> simpa [resolve_calls] using ih

/-- The loop of `start` never calls `malloc`. -/
theorem start_loop_malloc (h : Host) :
    ∀ (exts : List cp_extension_t) (d : plugin_data_t),
      malloc_calls (start_loop h exts d).trace = 0 := by
  intro exts
  induction exts with
  | nil =>
    intro d
    rfl
  | cons e rest ih =>
    intro d
    cases hp : cp_lookup_cfg_value e.configuration "@priority" with
    | none => simp [start_loop, hp, malloc_calls, ih]
    | some p =>
      cases hn : cp_lookup_cfg_value e.configuration "@classifier" with
      | none => simp [start_loop, hp, hn, malloc_calls, ih]
      | some name =>
        cases hc : h.resolve_symbol d.ctx e.plugin.identifier name with
        | none => simp [start_loop, hp, hn, hc, malloc_calls, ih]
        | some cl =>
          cases hs : store d.classifiers d.num_classifiers
              { priority := atoi p, classifier := cl } with
          | none => simp [start_loop, hp, hn, hc, hs, malloc_calls]
          | some b => simp [start_loop, hp, hn, hc, hs, malloc_calls, ih]

/-- With a count of zero on entry `start` never calls `malloc`. -/
theorem start_empty_malloc (h : Host) (d : plugin_data_t) (hempty : d.num_classifiers = 0) :
    malloc_calls (start h d).trace = 0 := by
  cases henum : h.get_extensions_info d.ctx
      "org.c-pluff.examples.cpfile.core.classifiers" with
  | mk arr st =>
    cases arr with
    | none => simp [start, henum, malloc_calls]
    | some exts =>
      cases hr : (start_loop h exts d).result with
      | none =>
        simp [start, henum, hempty, start_resolve, hr, malloc_calls, start_loop_malloc]
      | some u =>
        simp [start, henum, hempty, start_resolve, hr, malloc_calls, malloc_calls_append,
          start_loop_malloc]

/-- The `cp_resolve_symbol` calls of the loop of `start` are, in order, the
requests of the extensions that have both keys: all of them when the loop runs
to its end, the first ones when it stops at an invalid store. -/
theorem start_loop_resolve_calls (h : Host) :
    ∀ (exts : List cp_extension_t) (d : plugin_data_t),
      ∃ later, resolve_calls (start_loop h exts d).trace ++ later =
          exts.filterMap resolve_request ∧
        ((start_loop h exts d).result = some () → later = []) := by
  intro exts
  induction exts with
  | nil =>
    intro d
    exact ⟨[], rfl, fun _ => rfl⟩
  | cons e rest ih =>
    intro d
    cases hp : cp_lookup_cfg_value e.configuration "@priority" with
    | none =>
      obtain ⟨later, h1, h2⟩ := ih d
      have hreq : resolve_request e = none := by simp [resolve_request, hp]
      refine ⟨later, ?_, ?_⟩
      · simpa [start_loop, hp, resolve_calls, List.filterMap_cons, hreq] using h1
      · intro hr
        exact h2 (by simpa [start_loop, hp] using hr)
    | some p =>
      cases hn : cp_lookup_cfg_value e.configuration "@classifier" with
      | none =>
        obtain ⟨later, h1, h2⟩ := ih d
        have hreq : resolve_request e = none := by simp [resolve_request, hp, hn]
        refine ⟨later, ?_, ?_⟩
        · simpa [start_loop, hp, hn, resolve_calls, List.filterMap_cons, hreq] using h1
        · intro hr
          exact h2 (by simpa [start_loop, hp, hn] using hr)
      | some name =>
        have hreq : resolve_request e = some (e.plugin.identifier, name) := by
          simp [resolve_request, hp, hn]
        cases hc : h.resolve_symbol d.ctx e.plugin.identifier name with
        | none =>
          obtain ⟨later, h1, h2⟩ := ih d
          refine ⟨later, ?_, ?_⟩
          · simpa [start_loop, hp, hn, hc, resolve_calls, List.filterMap_cons, hreq] using h1
          · intro hr
            exact h2 (by simpa [start_loop, hp, hn, hc] using hr)
        | some cl =>
          cases hs : store d.classifiers d.num_classifiers
              { priority := atoi p, classifier := cl } with
          | none =>
            refine ⟨rest.filterMap resolve_request, ?_, ?_⟩
            · simp [start_loop, hp, hn, hc, hs, resolve_calls, List.filterMap_cons, hreq]
            · intro hr
              simp [start_loop, hp, hn, hc, hs] at hr
          | some b =>
            obtain ⟨later, h1, h2⟩ := ih ⟨d.ctx, d.num_classifiers + 1, some b⟩
            refine ⟨later, ?_, ?_⟩
            · simpa [start_loop, hp, hn, hc, hs, resolve_calls, List.filterMap_cons, hreq]
                using h1
            · intro hr
              exact h2 (by simpa [start_loop, hp, hn, hc, hs] using hr)

/-- After a successful enumeration, whatever the instance state, the
`cp_resolve_symbol` calls of `start` are, in enumeration order, the requests of
the extensions that have both `"@priority"` and `"@classifier"`, one call for
each: all of them when `start` returns `CP_OK`, an initial part otherwise. -/
theorem start_resolve_calls (h : Host) (d : plugin_data_t) (exts : List cp_extension_t)
    (st : cp_status_t)
    (henum : h.get_extensions_info d.ctx "org.c-pluff.examples.cpfile.core.classifiers" =
      (some exts, st)) :
    ∃ later, resolve_calls (start h d).trace ++ later = exts.filterMap resolve_request ∧
      ((start h d).result = some cp_status_t.CP_OK → later = []) := by
  have key : ∀ d2 : plugin_data_t,
      ∃ later, resolve_calls (start_resolve h exts d2).trace ++ later =
          exts.filterMap resolve_request ∧
        ((start_resolve h exts d2).result = some cp_status_t.CP_OK → later = []) := by
    intro d2
    obtain ⟨later, h1, h2⟩ := start_loop_resolve_calls h exts d2
    cases hr : (start_loop h exts d2).result with
    | none =>
      refine ⟨later, by simpa [start_resolve, hr] using h1, ?_⟩
      intro hok
      simp [start_resolve, hr] at hok
    | some u =>
      refine ⟨later, ?_, fun _ => h2 hr⟩
      simpa [start_resolve, hr, resolve_calls_append, resolve_calls] using h1
  by_cases hnum : d.num_classifiers > 0
  · by_cases hm : h.malloc_classifiers exts.length = true
    · obtain ⟨later, h1, h2⟩ :=
        key ⟨d.ctx, d.num_classifiers, some (List.replicate exts.length none)⟩
      refine ⟨later, by simpa [start, henum, hnum, hm, resolve_calls] using h1, ?_⟩
      intro hok
      exact h2 (by simpa [start, henum, hnum, hm] using hok)
    · refine ⟨exts.filterMap resolve_request, by simp [start, henum, hnum, hm, resolve_calls],
        ?_⟩
      intro hok
      simp [start, henum, hnum, hm] at hok
  · obtain ⟨later, h1, h2⟩ := key d
    refine ⟨later, by simpa [start, henum, hnum, resolve_calls] using h1, ?_⟩
    intro hok
    exact h2 (by simpa [start, henum, hnum] using hok)

/-- C1. The claim asks that `start`, on the instance `create` returns and with
every enumerated extension well formed, returns `CP_OK` with one table entry
per extension.  The code does not: with two well-formed extensions the guard
`data->num_classifiers > 0` is false, no array is allocated, and the first
store `data->classifiers[0].priority = pri` goes through the `NULL` pointer
right after the first symbol has been resolved. -/
theorem start_wellformed_stores_through_null :
    create host_wellformed 7 = (some fresh_instance, []) ∧
    start host_wellformed fresh_instance =
      { result := none, data := fresh_instance,
        trace :=
          [Event.get_extensions_info 7 "org.c-pluff.examples.cpfile.core.classifiers",
           Event.lookup_cfg_value [("@priority", "10"), ("@classifier", "a")] "@priority",
           Event.lookup_cfg_value [("@priority", "10"), ("@classifier", "a")] "@classifier",
           Event.resolve_symbol 7 "p1" "a" (some 100)] } := by
  constructor <;> rfl

/-- C2. The claim asks that an extension without `"@priority"` is skipped, the
later extensions are still processed and `start` still returns `CP_OK`.  The
code skips the bad extension and goes on to the next one, but on the instance
`create` returns it does not return `CP_OK`: the well-formed extension that
follows is resolved and then stored through the `NULL` pointer. -/
theorem start_bad_then_good_stores_through_null :
    start host_bad_then_good fresh_instance =
      { result := none, data := fresh_instance,
        trace :=
          [Event.get_extensions_info 7 "org.c-pluff.examples.cpfile.core.classifiers",
           Event.lookup_cfg_value [("@classifier", "a")] "@priority",
           Event.log 7 cp_log_severity_t.CP_LOG_ERROR "Ignoring classifier without priority.",
           Event.lookup_cfg_value [("@priority", "20"), ("@classifier", "b")] "@priority",
           Event.lookup_cfg_value [("@priority", "20"), ("@classifier", "b")] "@classifier",
           Event.resolve_symbol 7 "p2" "b" (some 200)] } := by
  rfl

/-- C3. When `start`, entered with a count of zero, has returned `CP_OK`, the
following `stop` returns and its `cp_release_symbol` calls are, in order,
exactly the non-null symbols `cp_resolve_symbol` returned during that
`start`. -/
theorem stop_releases_resolved_handles (h : Host) (d : plugin_data_t)
    (hempty : d.num_classifiers = 0)
    (hok : (start h d).result = some cp_status_t.CP_OK) :
    (stop (start h d).data).result = some () ∧
    released_handles (stop (start h d).data).trace = resolved_handles (start h d).trace := by
  cases henum : h.get_extensions_info d.ctx "org.c-pluff.examples.cpfile.core.classifiers" with
  | mk arr st =>
    cases arr with
    | none =>
      have hdata : (start h d).data = d := by simp [start, henum]
      have htrace : resolved_handles (start h d).trace = [] := by
        simp [start, henum, resolved_handles]
      obtain ⟨s1, _, s3⟩ := stop_spec (holds_empty hempty)
      rw [hdata, htrace]
      exact ⟨s1, by simpa using s3⟩
    | some exts =>
      obtain ⟨es, l, _, _, h3, _, _, h6⟩ := start_spec h d exts st henum hempty
      obtain ⟨s1, _, s3⟩ := stop_spec h3
      obtain ⟨_, h8⟩ := h6 hok
      exact ⟨s1, by rw [s3, h8]⟩

/-- C3 at two inputs: the instance `create` returns with three extensions that
are all skipped, and an instance with storage on which one symbol is resolved
and then released. -/
theorem stop_releases_resolved_handles_witness :
    ((stop (start host_all_skipped fresh_instance).data).result = some () ∧
      released_handles (stop (start host_all_skipped fresh_instance).data).trace =
        resolved_handles (start host_all_skipped fresh_instance).trace) ∧
    ((stop (start host_scenario instance_with_storage).data).result = some () ∧
      released_handles (stop (start host_scenario instance_with_storage).data).trace =
        resolved_handles (start host_scenario instance_with_storage).trace) ∧
    resolved_handles (start host_scenario instance_with_storage).trace = [100] :=
  ⟨stop_releases_resolved_handles host_all_skipped fresh_instance rfl (by decide),
   stop_releases_resolved_handles host_scenario instance_with_storage rfl (by decide),
   by decide⟩

/-- C4. For the instance `create` returns, and more generally for every
instance whose count is zero on entry, in the state `start` leaves, the
following `stop` returns and leaves `num_classifiers = 0` and
`classifiers = NULL`, with `ctx` as `start` left it, which is as it was on
entry.  Where `start` has filled storage, `stop` is what clears it. -/
theorem stop_after_start_empties_table (h h0 : Host) (ctx : cp_context_t)
    (d : plugin_data_t)
    (hd : (create h0 ctx).1 = some d ∨ d.num_classifiers = 0) :
    (stop (start h d).data).result = some () ∧
    (stop (start h d).data).data.num_classifiers = 0 ∧
    (stop (start h d).data).data.classifiers = none ∧
    (stop (start h d).data).data.ctx = (start h d).data.ctx ∧
    (start h d).data.ctx = d.ctx := by
  have hempty : d.num_classifiers = 0 := by
    rcases hd with hc | hz
    · unfold create at hc
      split at hc
      · simp only [Option.some.injEq] at hc
        subst hc
        rfl
      · simp at hc
    · exact hz
  have hh : ∃ l, Holds (start h d).data l ∧ (start h d).data.ctx = d.ctx := by
    cases henum : h.get_extensions_info d.ctx
        "org.c-pluff.examples.cpfile.core.classifiers" with
    | mk arr st =>
      cases arr with
      | none =>
        have hdata : (start h d).data = d := by simp [start, henum]
        exact ⟨[], by rw [hdata]; exact holds_empty hempty, by rw [hdata]⟩
      | some exts =>
        obtain ⟨es, l, _, _, h3, h4, _, _⟩ := start_spec h d exts st henum hempty
        exact ⟨l, h3, h4⟩
  obtain ⟨l, hl, hc2⟩ := hh
  obtain ⟨s1, s2, _⟩ := stop_spec hl
  refine ⟨s1, by rw [s2], by rw [s2], by rw [s2], hc2⟩

/-- C4 at two inputs: the instance `create` returns for context `7`, and an
instance with storage on which `start` records one entry, so that `stop` has
a count of one and a non-null pointer to clear. -/
theorem stop_after_start_empties_table_witness :
    ((stop (start host_all_skipped fresh_instance).data).result = some () ∧
      (stop (start host_all_skipped fresh_instance).data).data.num_classifiers = 0 ∧
      (stop (start host_all_skipped fresh_instance).data).data.classifiers = none ∧
      (stop (start host_all_skipped fresh_instance).data).data.ctx =
        (start host_all_skipped fresh_instance).data.ctx ∧
      (start host_all_skipped fresh_instance).data.ctx = fresh_instance.ctx) ∧
    ((stop (start host_scenario instance_with_storage).data).result = some () ∧
      (stop (start host_scenario instance_with_storage).data).data.num_classifiers = 0 ∧
      (stop (start host_scenario instance_with_storage).data).data.classifiers = none ∧
      (stop (start host_scenario instance_with_storage).data).data.ctx =
        (start host_scenario instance_with_storage).data.ctx ∧
      (start host_scenario instance_with_storage).data.ctx = instance_with_storage.ctx) ∧
    (start host_scenario instance_with_storage).data =
      { ctx := 7, num_classifiers := 1,
        classifiers := some [some { priority := 10, classifier := 100 }, none, none] } ∧
    (stop (start host_scenario instance_with_storage).data).trace =
      [Event.release_symbol 7 100, Event.free_classifiers] :=
  ⟨stop_after_start_empties_table host_all_skipped host_all_skipped 7 fresh_instance
      (Or.inl rfl),
   stop_after_start_empties_table host_scenario host_scenario 7 instance_with_storage
      (Or.inr rfl),
   rfl, rfl⟩

/-- C5, as stated, fails: `start` does not test the status.  With a host that
returns `NULL` and stores `CP_OK`, `start` returns `CP_OK`. -/
theorem start_enumeration_failure_counterexample :
    (host_enumeration_fails cp_status_t.CP_OK).get_extensions_info fresh_instance.ctx
        "org.c-pluff.examples.cpfile.core.classifiers" = (none, cp_status_t.CP_OK) ∧
    (start (host_enumeration_fails cp_status_t.CP_OK) fresh_instance).result =
      some cp_status_t.CP_OK ∧
    ¬ ((start (host_enumeration_fails cp_status_t.CP_OK) fresh_instance).result ≠
      some cp_status_t.CP_OK) := by
  decide

/-- C5, amended. When `cp_get_extensions_info` returns `NULL` with status `s`,
`start` returns exactly `s`, untested, so that its result is `CP_OK` only when
the host stored `CP_OK`; it leaves the instance as it was and makes no other
call: no configuration lookup, no symbol resolution and no allocation. -/
theorem start_enumeration_failure (h : Host) (d : plugin_data_t) (s : cp_status_t)
    (hfail : h.get_extensions_info d.ctx "org.c-pluff.examples.cpfile.core.classifiers" =
      (none, s)) :
    start h d =
      { result := some s, data := d,
        trace := [Event.get_extensions_info d.ctx
          "org.c-pluff.examples.cpfile.core.classifiers"] } ∧
    ((start h d).result = some cp_status_t.CP_OK ↔ s = cp_status_t.CP_OK) := by
  have hrun : start h d =
      { result := some s, data := d,
        trace := [Event.get_extensions_info d.ctx
          "org.c-pluff.examples.cpfile.core.classifiers"] } := by
    simp [start, hfail]
  refine ⟨hrun, ?_⟩
  rw [hrun]
  simp

/-- C5 amended, on the instance `create` returns, with an enumeration that
fails with `CP_ERR_RESOURCE`. -/
theorem start_enumeration_failure_witness :
    start (host_enumeration_fails cp_status_t.CP_ERR_RESOURCE) fresh_instance =
      { result := some cp_status_t.CP_ERR_RESOURCE, data := fresh_instance,
        trace := [Event.get_extensions_info fresh_instance.ctx
          "org.c-pluff.examples.cpfile.core.classifiers"] } ∧
    ((start (host_enumeration_fails cp_status_t.CP_ERR_RESOURCE) fresh_instance).result =
        some cp_status_t.CP_OK ↔
      cp_status_t.CP_ERR_RESOURCE = cp_status_t.CP_OK) :=
  start_enumeration_failure (host_enumeration_fails cp_status_t.CP_ERR_RESOURCE)
    fresh_instance cp_status_t.CP_ERR_RESOURCE rfl

/-- C7. When the enumeration succeeds, the count is positive (so that `start`
allocates) and the allocation fails, `start` returns `CP_ERR_RESOURCE` after
the enumeration, the `malloc` and one log call only: no configuration lookup,
no `cp_resolve_symbol`, and the count is unchanged.  The `classifiers` pointer
is left `NULL`, the value `malloc` returned. -/
theorem start_allocation_failure (h : Host) (d : plugin_data_t)
    (exts : List cp_extension_t) (st : cp_status_t)
    (henum : h.get_extensions_info d.ctx "org.c-pluff.examples.cpfile.core.classifiers" =
      (some exts, st))
    (hnum : 0 < d.num_classifiers)
    (hmalloc : h.malloc_classifiers exts.length = false) :
    start h d =
      { result := some cp_status_t.CP_ERR_RESOURCE,
        data := { ctx := d.ctx, num_classifiers := d.num_classifiers, classifiers := none },
        trace :=
          [Event.get_extensions_info d.ctx "org.c-pluff.examples.cpfile.core.classifiers",
           Event.malloc_classifiers exts.length,
           Event.log d.ctx cp_log_severity_t.CP_LOG_ERROR
             "Insufficient memory for classifier list."] } := by
  simp [start, henum, hnum, hmalloc]

/-- C7 on an instance whose count is one, with three extensions enumerated. -/
theorem start_allocation_failure_witness :
    start (host_allocation_fails exts_scenario) instance_with_entry =
      { result := some cp_status_t.CP_ERR_RESOURCE,
        data := { ctx := instance_with_entry.ctx,
                  num_classifiers := instance_with_entry.num_classifiers,
                  classifiers := none },
        trace :=
          [Event.get_extensions_info instance_with_entry.ctx
             "org.c-pluff.examples.cpfile.core.classifiers",
           Event.malloc_classifiers exts_scenario.length,
           Event.log instance_with_entry.ctx cp_log_severity_t.CP_LOG_ERROR
             "Insufficient memory for classifier list."] } :=
  start_allocation_failure (host_allocation_fails exts_scenario) instance_with_entry
    exts_scenario cp_status_t.CP_OK rfl (by decide) rfl

/-- C8. The claim asks that the scenario ends with `CP_OK` and the table
`[{10, a}]`.  On the instance `create` returns the code resolves `"a"` for the
first extension and then stores through the `NULL` pointer: no status is
returned, no entry is recorded, and the second and third extensions are never
looked at. -/
theorem start_scenario_stores_through_null :
    start host_scenario fresh_instance =
      { result := none, data := fresh_instance,
        trace :=
          [Event.get_extensions_info 7 "org.c-pluff.examples.cpfile.core.classifiers",
           Event.lookup_cfg_value [("@priority", "10"), ("@classifier", "a")] "@priority",
           Event.lookup_cfg_value [("@priority", "10"), ("@classifier", "a")] "@classifier",
           Event.resolve_symbol 7 "p1" "a" (some 100)] } ∧
    table (start host_scenario fresh_instance).data = [] := by
  constructor <;> rfl

/-- C9. After `start` on an instance whose count was zero, in the state it
leaves (also when it stopped at an invalid store), `num_classifiers` is at
most the number of enumerated extensions, and the table entries are, in order,
the entries of distinct enumerated extensions (a sublist of the enumeration)
each of which had `"@priority"`, had `"@classifier"` and resolved to a
non-null symbol. -/
theorem start_table_within_enumeration (h : Host) (d : plugin_data_t)
    (hempty : d.num_classifiers = 0) :
    (start h d).data.num_classifiers ≤ (enumerated h d).length ∧
    ∃ es, es.Sublist (enumerated h d) ∧
      List.Forall₂
        (fun e t => ∃ p name cl,
          cp_lookup_cfg_value e.configuration "@priority" = some p ∧
          cp_lookup_cfg_value e.configuration "@classifier" = some name ∧
          h.resolve_symbol d.ctx e.plugin.identifier name = some cl ∧
          t = some { priority := atoi p, classifier := cl })
        es (table (start h d).data) := by
  cases henum : h.get_extensions_info d.ctx "org.c-pluff.examples.cpfile.core.classifiers" with
  | mk arr st =>
    cases arr with
    | none =>
      have hdata : (start h d).data = d := by simp [start, henum]
      rw [hdata]
      refine ⟨by simp [hempty], [], List.nil_sublist _, ?_⟩
      simp [table, hempty]
    | some exts =>
      have hen : enumerated h d = exts := by simp [enumerated, henum]
      obtain ⟨es, l, h1, h2, h3, _, _, _⟩ := start_spec h d exts st henum hempty
      rw [hen]
      have hlen : l.length ≤ exts.length := by
        rw [← h2.length_eq]
        exact h1.length_le
      refine ⟨by rw [h3.1]; exact_mod_cast hlen, es, h1, ?_⟩
      rw [h3.2, List.forall₂_map_right_iff]
      refine h2.imp ?_
      intro e t het
      obtain ⟨p, name, cl, e1, e2, e3, e4⟩ := capability_resolver_eq_some het
      exact ⟨p, name, cl, e1, e2, e3, by rw [e4]⟩

/-- C9 on an instance with an empty table and storage for three elements, in
the scenario of three extensions of which one yields an entry. -/
theorem start_table_within_enumeration_witness :
    (start host_scenario instance_with_storage).data.num_classifiers ≤
      (enumerated host_scenario instance_with_storage).length ∧
    ∃ es, es.Sublist (enumerated host_scenario instance_with_storage) ∧
      List.Forall₂
        (fun e t => ∃ p name cl,
          cp_lookup_cfg_value e.configuration "@priority" = some p ∧
          cp_lookup_cfg_value e.configuration "@classifier" = some name ∧
          host_scenario.resolve_symbol instance_with_storage.ctx e.plugin.identifier name =
            some cl ∧
          t = some { priority := atoi p, classifier := cl })
        es (table (start host_scenario instance_with_storage).data) :=
  start_table_within_enumeration host_scenario instance_with_storage rfl

/-- C10. The claim asks that two resolvable extensions with priorities 5 then
10 give the table `[{5,..},{10,..}]`, and 10 then 5 the table
`[{10,..},{5,..}]`.  On the instance `create` returns the code builds neither:
in both orders the first resolved classifier is stored through the `NULL`
pointer and the table stays empty. -/
theorem start_two_resolvable_stores_through_null :
    (start host_5_then_10 fresh_instance).result = none ∧
    table (start host_5_then_10 fresh_instance).data = [] ∧
    (start host_10_then_5 fresh_instance).result = none ∧
    table (start host_10_then_5 fresh_instance).data = [] := by
  refine ⟨?_, ?_, ?_, ?_⟩ <;> rfl

/-- C11. For every context, `create` either fails, returning `NULL` after one
`cp_log` error call, which happens exactly when the allocation fails, or
returns a new instance with the given `ctx`, `num_classifiers = 0` and
`classifiers = NULL`, without logging. -/
theorem create_fails_or_returns_empty_instance (h : Host) (ctx : cp_context_t) :
    (h.malloc_plugin_data = false ∧
      create h ctx =
        (none, [Event.log ctx cp_log_severity_t.CP_LOG_ERROR
          "Insufficient memory for plug-in data."])) ∨
    (h.malloc_plugin_data = true ∧
      create h ctx =
        (some { ctx := ctx, num_classifiers := 0, classifiers := none }, [])) := by
  cases hm : h.malloc_plugin_data with
  | false => left; simp [create, hm]
  | true => right; simp [create, hm]

/-- C12, as stated, fails: when the enumeration fails with a status other than
`CP_ERR_RESOURCE`, `start` returns that status, which is neither `CP_OK` nor
`CP_ERR_RESOURCE`. -/
theorem start_status_counterexample :
    (start (host_enumeration_fails (cp_status_t.CP_ERR_OTHER 2)) fresh_instance).result =
      some (cp_status_t.CP_ERR_OTHER 2) ∧
    ¬ ((start (host_enumeration_fails (cp_status_t.CP_ERR_OTHER 2)) fresh_instance).result =
        some cp_status_t.CP_OK ∨
       (start (host_enumeration_fails (cp_status_t.CP_ERR_OTHER 2)) fresh_instance).result =
        some cp_status_t.CP_ERR_RESOURCE) := by
  decide

/-- C12, amended. For every instance state and every host, a status returned
by `start` is `CP_OK`, or `CP_ERR_RESOURCE`, or the status the host stored
when `cp_get_extensions_info` returned `NULL`. -/
theorem start_status_range (h : Host) (d : plugin_data_t) (s : cp_status_t)
    (hs : (start h d).result = some s) :
    s = cp_status_t.CP_OK ∨ s = cp_status_t.CP_ERR_RESOURCE ∨
    h.get_extensions_info d.ctx "org.c-pluff.examples.cpfile.core.classifiers" =
      (none, s) := by
  have key : ∀ d2 : plugin_data_t, ∀ exts : List cp_extension_t,
      (start_resolve h exts d2).result = some s → s = cp_status_t.CP_OK := by
    intro d2 exts h2
    unfold start_resolve at h2
    cases hr : (start_loop h exts d2).result with
    | none => simp [hr] at h2
    | some u =>
      simp only [hr, Option.some.injEq] at h2
      exact h2.symm
  cases henum : h.get_extensions_info d.ctx
      "org.c-pluff.examples.cpfile.core.classifiers" with
  | mk arr st =>
    cases arr with
    | none =>
      right; right
      have : st = s := by simpa [start, henum] using hs
      rw [this]
    | some exts =>
      by_cases hnum : d.num_classifiers > 0
      · by_cases hm : h.malloc_classifiers exts.length = true
        · left
          exact key _ exts (by simpa [start, henum, hnum, hm] using hs)
        · right; left
          have : cp_status_t.CP_ERR_RESOURCE = s := by
            simpa [start, henum, hnum, hm] using hs
          exact this.symm
      · left
        exact key _ exts (by simpa [start, henum, hnum] using hs)

/-- C12 amended, at an enumeration that fails with a status other than
`CP_ERR_RESOURCE`. -/
theorem start_status_range_witness :
    cp_status_t.CP_ERR_OTHER 2 = cp_status_t.CP_OK ∨
    cp_status_t.CP_ERR_OTHER 2 = cp_status_t.CP_ERR_RESOURCE ∨
    (host_enumeration_fails (cp_status_t.CP_ERR_OTHER 2)).get_extensions_info
        fresh_instance.ctx "org.c-pluff.examples.cpfile.core.classifiers" =
      (none, cp_status_t.CP_ERR_OTHER 2) :=
  start_status_range (host_enumeration_fails (cp_status_t.CP_ERR_OTHER 2)) fresh_instance
    (cp_status_t.CP_ERR_OTHER 2) rfl

/-- C13. For the instance `create` returns, and for the state a `stop` that
returned leaves when the `classifiers` pointer was not `NULL`, the count the
allocation guard of `start` tests is zero and the pointer is `NULL`; `start`
on such an instance never calls `malloc` and leaves the instance data as it
is, so the pointer is still `NULL` when the first entry is appended: as soon
as one extension yields a classifier the run stops at that store. -/
theorem start_guard_never_allocates (h h0 : Host) (ctx : cp_context_t)
    (d0 d : plugin_data_t)
    (hd : (create h0 ctx).1 = some d ∨
      (d0.classifiers ≠ none ∧ (stop d0).result = some () ∧ (stop d0).data = d)) :
    d.num_classifiers = 0 ∧ d.classifiers = none ∧
    malloc_calls (start h d).trace = 0 ∧
    (start h d).data = d ∧
    ((enumerated h d).filterMap (capability_resolver h d.ctx) ≠ [] →
      (start h d).result = none) := by
  have hstate : d.num_classifiers = 0 ∧ d.classifiers = none := by
    rcases hd with hc | ⟨hnn, hres, hdata⟩
    · unfold create at hc
      split at hc
      · simp only [Option.some.injEq] at hc
        subst hc
        exact ⟨rfl, rfl⟩
      · simp at hc
    · cases hc : d0.classifiers with
      | none => exact absurd hc hnn
      | some b =>
        cases hr : (stop_loop d0 (List.range d0.num_classifiers.toNat)).result with
        | none => simp [stop, hc, hr] at hres
        | some u =>
          have : d = ⟨d0.ctx, 0, none⟩ := by
            rw [← hdata]
            simp [stop, hc, hr]
          rw [this]
          exact ⟨rfl, rfl⟩
  obtain ⟨hempty, hnull⟩ := hstate
  refine ⟨hempty, hnull, start_empty_malloc h d hempty, ?_, ?_⟩
  · cases henum : h.get_extensions_info d.ctx
        "org.c-pluff.examples.cpfile.core.classifiers" with
    | mk arr st =>
      cases arr with
      | none => simp [start, henum]
      | some exts => exact (start_null_outcome h d exts st henum hempty hnull).1
  · cases henum : h.get_extensions_info d.ctx
        "org.c-pluff.examples.cpfile.core.classifiers" with
    | mk arr st =>
      cases arr with
      | none => simp [enumerated, henum]
      | some exts =>
        have hen : enumerated h d = exts := by simp [enumerated, henum]
        rw [hen]
        exact (start_null_outcome h d exts st henum hempty hnull).2.2

/-- C13 at the instance `create` returns for context `7`, and at the state
`stop` leaves on an instance that held one entry, each followed by a `start`
that enumerates two well-formed extensions. -/
theorem start_guard_never_allocates_witness :
    (fresh_instance.num_classifiers = 0 ∧ fresh_instance.classifiers = none ∧
      malloc_calls (start host_wellformed fresh_instance).trace = 0 ∧
      (start host_wellformed fresh_instance).data = fresh_instance ∧
      ((enumerated host_wellformed fresh_instance).filterMap
          (capability_resolver host_wellformed fresh_instance.ctx) ≠ [] →
        (start host_wellformed fresh_instance).result = none)) ∧
    ((stop instance_with_entry).data.num_classifiers = 0 ∧
      (stop instance_with_entry).data.classifiers = none ∧
      malloc_calls (start host_wellformed (stop instance_with_entry).data).trace = 0 ∧
      (start host_wellformed (stop instance_with_entry).data).data =
        (stop instance_with_entry).data ∧
      ((enumerated host_wellformed (stop instance_with_entry).data).filterMap
          (capability_resolver host_wellformed (stop instance_with_entry).data.ctx) ≠ [] →
        (start host_wellformed (stop instance_with_entry).data).result = none)) :=
  ⟨start_guard_never_allocates host_wellformed host_wellformed 7 fresh_instance
      fresh_instance (Or.inl rfl),
   start_guard_never_allocates host_wellformed host_wellformed 7 instance_with_entry
      (stop instance_with_entry).data (Or.inr ⟨by decide, by decide, rfl⟩)⟩

/-- C14. The claim asks that an extension with a present priority and a
resolvable symbol is appended with the `atoi` value of the priority, so that
priority `"bad"` is registered with priority 0.  The code parses `"bad"` to 0
and does not skip the extension: it resolves the symbol.  But on the instance
`create` returns nothing is appended, the store goes through the `NULL`
pointer.  Only on an instance that already has storage is the entry `{0, a}`
recorded. -/
theorem start_bad_priority_stores_through_null :
    atoi "bad" = 0 ∧ atoi " -12x" = -12 ∧ atoi "+7" = 7 ∧
    start host_bad_priority fresh_instance =
      { result := none, data := fresh_instance,
        trace :=
          [Event.get_extensions_info 7 "org.c-pluff.examples.cpfile.core.classifiers",
           Event.lookup_cfg_value [("@priority", "bad"), ("@classifier", "a")] "@priority",
           Event.lookup_cfg_value [("@priority", "bad"), ("@classifier", "a")] "@classifier",
           Event.resolve_symbol 7 "p1" "a" (some 100)] } ∧
    table (start host_bad_priority fresh_instance).data = [] ∧
    table (start host_bad_priority instance_with_storage).data =
      [some { priority := 0, classifier := 100 }] := by
  refine ⟨?_, ?_, ?_, ?_, ?_, ?_⟩ <;> rfl

/-- C15. The claim asks that every append of `start` writes inside the
storage `classifiers` points to.  The code does not ensure it.  On the
instance `create` returns the first append writes at index 0 with no storage
at all (`classifiers = NULL`).  On an instance that holds one entry, with two
well-formed extensions, `start` allocates two elements, writes the first
classifier at index 1 and the second at index 2, outside the two elements
allocated. -/
theorem start_append_outside_storage :
    store fresh_instance.classifiers fresh_instance.num_classifiers
      { priority := 10, classifier := 100 } = none ∧
    (start host_single fresh_instance).result = none ∧
    start host_wellformed instance_with_entry =
      { result := none,
        data := { ctx := 7, num_classifiers := 2,
                  classifiers := some [none, some { priority := 10, classifier := 100 }] },
        trace :=
          [Event.get_extensions_info 7 "org.c-pluff.examples.cpfile.core.classifiers",
           Event.malloc_classifiers 2,
           Event.lookup_cfg_value [("@priority", "10"), ("@classifier", "a")] "@priority",
           Event.lookup_cfg_value [("@priority", "10"), ("@classifier", "a")] "@classifier",
           Event.resolve_symbol 7 "p1" "a" (some 100),
           Event.lookup_cfg_value [("@priority", "20"), ("@classifier", "b")] "@priority",
           Event.lookup_cfg_value [("@priority", "20"), ("@classifier", "b")] "@classifier",
           Event.resolve_symbol 7 "p2" "b" (some 200)] } ∧
    store (some [none, some { priority := 10, classifier := 100 }]) 2
      { priority := 20, classifier := 200 } = none := by
  refine ⟨?_, ?_, ?_, ?_⟩ <;> rfl

/-- C16. The claim asks, besides the order and the arguments of the
`cp_resolve_symbol` calls, that every non-null symbol returned is appended to
the table.  On the instance `create` returns, with one well-formed extension,
the code makes the one call with the plug-in identifier and the symbol name,
gets a non-null symbol, and appends nothing: the store goes through the `NULL`
pointer and the table stays empty. -/
theorem start_resolved_symbol_not_appended :
    resolve_calls (start host_single fresh_instance).trace = [("p1", "a")] ∧
    resolved_handles (start host_single fresh_instance).trace = [100] ∧
    (start host_single fresh_instance).result = none ∧
    (start host_single fresh_instance).data = fresh_instance ∧
    table (start host_single fresh_instance).data = [] := by
  refine ⟨?_, ?_, ?_, ?_, ?_⟩ <;> rfl

/-- C17. On every instance state whose `classifiers` pointer is `NULL`, `stop`
returns without any call, so without a `cp_release_symbol` call, and leaves
every field as it was: `num_classifiers` keeps its value, zero or not. -/
theorem stop_null_is_noop (d : plugin_data_t) (hnull : d.classifiers = none) :
    stop d = { result := some (), data := d, trace := [] } := by
  simp [stop, hnull]

/-- C17 on an instance with `classifiers = NULL` and a count of one: the count
is still one after `stop`. -/
theorem stop_null_is_noop_witness :
    stop instance_null_with_count =
      { result := some (), data := instance_null_with_count, trace := [] } :=
  stop_null_is_noop instance_null_with_count rfl

/-- C18. On every instance state on which a first `stop` has returned, a
second `stop` on the state it left returns without any call, so without a
`cp_release_symbol` call, and leaves that state as it is. -/
theorem stop_twice (d : plugin_data_t) (hfirst : (stop d).result = some ()) :
    stop (stop d).data = { result := some (), data := (stop d).data, trace := [] } ∧
    released_handles (stop (stop d).data).trace = [] := by
  have hnull : (stop d).data.classifiers = none := by
    cases hc : d.classifiers with
    | none => simp [stop, hc]
    | some b =>
      cases hr : (stop_loop d (List.range d.num_classifiers.toNat)).result with
      | none => simp [stop, hc, hr] at hfirst
      | some u => simp [stop, hc, hr]
  have hrun := stop_null_is_noop_aux (stop d).data hnull
  exact ⟨hrun, by rw [hrun]; rfl⟩

/-- C18 on an instance holding one entry: the first `stop` releases it, the
second releases nothing. -/
theorem stop_twice_witness :
    stop (stop instance_with_entry).data =
      { result := some (), data := (stop instance_with_entry).data, trace := [] } ∧
    released_handles (stop (stop instance_with_entry).data).trace = [] :=
  stop_twice instance_with_entry (by decide)

end CpfileCore
